import Mathlib

/-!
Verification development for the DSV shipping plugin
(`@agxchange/vendure-plugin-dsv-shipping`).

The repository contains two generations of several components; both are
embedded where the properties under study mention both:

* `DsvAuthService` from `src/unnamed/part_001` ("implementation A"):
  caches a `CachedToken` record with absolute expiry, a 60-second buffer
  and an optional refresh token with its own expiry.
* `DsvAuthService` from `src/src/services/dsv-auth.service.ts`
  ("implementation B"): caches a bare token string plus an expiry
  timestamp that already has the 300-second buffer subtracted.

Timestamps are integer milliseconds since the epoch (`Date.now()`),
durations coming from the OAuth response are in seconds, exactly as in
the source.  Network interaction is embedded by passing the outcome of
each potential HTTP exchange as an explicit argument; the returned trace
records which exchanges the call actually performed.
-/

/-- OAuth token endpoint response as implementation A reads it
(`DsvTokenResponse`): `access_token`, `expires_in` (seconds), optional
`refresh_token` and `refresh_expires_in`. -/
structure DsvTokenResponse where
  access_token : String
  expires_in : Int
  refresh_token : Option String
  refresh_expires_in : Option Int
deriving DecidableEq

/-- The cached token record of implementation A (`CachedToken`). -/
structure CachedToken where
  token : String
  expiresAt : Int
  refreshToken : Option String
  refreshExpiresAt : Option Int
deriving DecidableEq

/-- Outcome of one network token exchange offered to implementation A:
either the parsed response body or the formatted error string that
`formatError` would produce for the failure. -/
inductive NetOutcome where
  | ok (resp : DsvTokenResponse)
  | err (msg : String)
deriving DecidableEq

def NetOutcome.isOk : NetOutcome → Bool
  | .ok _ => true
  | .err _ => false

/-- Events recorded by a `getAccessToken` call of implementation A: a
refresh-token grant request or a client-credentials grant request,
tagged with whether the exchange succeeded. -/
inductive AuthEvent where
  | refreshReq (success : Bool)
  | acquireReq (success : Bool)
deriving DecidableEq

def AuthEvent.success : AuthEvent → Bool
  | .refreshReq s => s
  | .acquireReq s => s

/-- Number of completed (successful) token exchanges in a trace. -/
def countSuccess (tr : List AuthEvent) : Nat :=
  (tr.filter AuthEvent.success).length

/-- `tokenBufferSeconds = 60` of implementation A. -/
def tokenBufferSecondsA : Int := 60

/-- `isTokenValid` of implementation A: now strictly before
`expiresAt - buffer`. -/
def isTokenValidA (now : Int) (c : CachedToken) : Bool :=
  decide (now < c.expiresAt - tokenBufferSecondsA * 1000)

/-- `isRefreshTokenValid` of implementation A. -/
def isRefreshTokenValidA (now : Int) (c : CachedToken) : Bool :=
  match c.refreshExpiresAt with
  | none => false
  | some r => decide (now < r)

/-- Cache record built by `acquireToken` of implementation A from a
successful response at time `now`. -/
def cacheFromAcquire (now : Int) (resp : DsvTokenResponse) : CachedToken :=
  { token := resp.access_token
    expiresAt := now + resp.expires_in * 1000
    refreshToken := resp.refresh_token
    refreshExpiresAt := resp.refresh_expires_in.map (fun r => now + r * 1000) }

/-- Cache record built by `refreshToken` of implementation A: like
`acquireToken` but keeping the old refresh token when the response
carries none (`tokenData.refresh_token || refreshToken`). -/
def cacheFromRefresh (now : Int) (resp : DsvTokenResponse) (oldRefresh : String) :
    CachedToken :=
  { token := resp.access_token
    expiresAt := now + resp.expires_in * 1000
    refreshToken := some (resp.refresh_token.getD oldRefresh)
    refreshExpiresAt := resp.refresh_expires_in.map (fun r => now + r * 1000) }

/-- `acquireToken` of implementation A: on success cache the new token
and return it, on failure throw
`DSV OAuth authentication failed: <formatted>` leaving the cache as it
was. -/
def acquireTokenA (now : Int) (net : NetOutcome) (st : Option CachedToken) :
    Except String String × Option CachedToken :=
  match net with
  | .ok resp => (Except.ok resp.access_token, some (cacheFromAcquire now resp))
  | .err m => (Except.error ("DSV OAuth authentication failed: " ++ m), st)

/-- `getAccessToken` of implementation A.  `refreshNet` and `acquireNet`
are the outcomes the network would give to a refresh-token grant and to
a client-credentials grant; the trace lists the exchanges actually
performed, in order. -/
def getAccessTokenA (now : Int) (st : Option CachedToken)
    (refreshNet acquireNet : NetOutcome) :
    Except String String × Option CachedToken × List AuthEvent :=
  match st with
  | some c =>
    if isTokenValidA now c then
      (Except.ok c.token, some c, [])
    else
      match c.refreshToken with
      | some rt =>
        if isRefreshTokenValidA now c then
          match refreshNet with
          | NetOutcome.ok resp =>
            (Except.ok resp.access_token, some (cacheFromRefresh now resp rt),
              [AuthEvent.refreshReq true])
          | NetOutcome.err _ =>
            let r := acquireTokenA now acquireNet (some c)
            (r.1, r.2, [AuthEvent.refreshReq false, AuthEvent.acquireReq acquireNet.isOk])
        else
          let r := acquireTokenA now acquireNet (some c)
          (r.1, r.2, [AuthEvent.acquireReq acquireNet.isOk])
      | none =>
        let r := acquireTokenA now acquireNet (some c)
        (r.1, r.2, [AuthEvent.acquireReq acquireNet.isOk])
  | none =>
    let r := acquireTokenA now acquireNet none
    (r.1, r.2, [AuthEvent.acquireReq acquireNet.isOk])

/-- Token endpoint response as implementation B reads it: the code
checks `access_token` for truthiness and defaults a missing
`expires_in` to 3600. -/
structure TokenRespB where
  access_token : Option String
  expires_in : Option Int
deriving DecidableEq

/-- Outcome of the single network exchange of implementation B: parsed
body, HTTP rejection with optional status, or a non-HTTP failure. -/
inductive NetOutcomeB where
  | ok (resp : TokenRespB)
  | httpErr (status : Option Int) (msg : String)
  | otherErr (msg : String)
deriving DecidableEq

/-- Mutable fields of implementation B's service. -/
structure AuthStateB where
  accessToken : Option String
  tokenExpiresAt : Option Int
deriving DecidableEq

/-- `tokenBufferSeconds = 300` of implementation B. -/
def tokenBufferSecondsB : Int := 300

/-- JavaScript `x || d` on an optional number (0 is falsy). -/
def jsOrInt (o : Option Int) (d : Int) : Int :=
  match o with
  | some x => if x = 0 then d else x
  | none => d

/-- JavaScript truthiness test for an optional string: absent or empty
means falsy. -/
def strFalsy : Option String → Bool
  | none => true
  | some s => s == ""

/-- `isTokenValid` of implementation B: token and expiry present and
`Date.now() < tokenExpiresAt`.  The stored `tokenExpiresAt` is
`acquisitionTime + (expires_in - 300) * 1000`, i.e. the absolute expiry
minus the 300-second buffer. -/
def isTokenValidB (s : AuthStateB) (now : Int) : Bool :=
  match s.accessToken, s.tokenExpiresAt with
  | some _, some exp => decide (now < exp)
  | _, _ => false

/-- `refreshToken` of implementation B (a full password-grant exchange,
despite the name).  Returns the thrown error message, or unit together
with the updated state. -/
def refreshTokenB (now : Int) (s : AuthStateB) (net : NetOutcomeB) :
    Except String Unit × AuthStateB :=
  match net with
  | .ok resp =>
    match resp.access_token with
    | none =>
      (Except.error "DSV Authentication failed: Invalid token response: missing access_token", s)
    | some tok =>
      if tok == "" then
        (Except.error "DSV Authentication failed: Invalid token response: missing access_token", s)
      else
        let expiresIn := jsOrInt resp.expires_in 3600
        (Except.ok (),
          { accessToken := some tok
            tokenExpiresAt := some (now + (expiresIn - tokenBufferSecondsB) * 1000) })
  | .httpErr status m =>
    if status = some 401 then
      (Except.error "DSV Authentication failed: Invalid credentials", s)
    else if status = some 403 then
      (Except.error "DSV Authentication failed: Access forbidden", s)
    else if status = some 429 then
      (Except.error "DSV Authentication failed: Rate limit exceeded", s)
    else
      (Except.error ("DSV Authentication failed: " ++ m), s)
  | .otherErr m => (Except.error ("DSV Authentication failed: " ++ m), s)

/-- `getAccessToken` of implementation B.  The boolean trace records the
network exchanges performed (at most one), tagged with success. -/
def getAccessTokenB (now : Int) (s : AuthStateB) (net : NetOutcomeB) :
    Except String String × AuthStateB × List Bool :=
  if isTokenValidB s now then
    (Except.ok (s.accessToken.getD ""), s, [])
  else
    match refreshTokenB now s net with
    | (Except.error m, s2) => (Except.error m, s2, [false])
    | (Except.ok _, s2) =>
      match s2.accessToken with
      | none => (Except.error "Failed to obtain access token", s2, [true])
      | some tok => (Except.ok tok, s2, [true])

/-- Run a sequence of `getAccessToken` calls of implementation B at the
given times; `oracle` supplies the network outcome a call at each time
would see. -/
def runCallsB : List Int → AuthStateB → (Int → NetOutcomeB) → AuthStateB × List Bool
  | [], s, _ => (s, [])
  | t :: ts, s, oracle =>
    let r := getAccessTokenB t s (oracle t)
    let rest := runCallsB ts r.2.1 oracle
    (rest.1, r.2.2 ++ rest.2)

/-- Run a sequence of `getAccessToken` calls of implementation A; the
oracle supplies the (refresh, acquire) outcomes per call time. -/
def runCallsA : List Int → Option CachedToken → (Int → NetOutcome × NetOutcome) →
    Option CachedToken × List AuthEvent
  | [], st, _ => (st, [])
  | t :: ts, st, oracle =>
    let r := getAccessTokenA t st (oracle t).1 (oracle t).2
    let rest := runCallsA ts r.2.1 oracle
    (rest.1, r.2.2 ++ rest.2)

/-!
Quote service embedding.  The repository again has two generations:

* `DsvQuoteService` in `src/unnamed/part_002` (types from
  `plugin-options.types.ts`), whose `generateCacheKey` joins the
  normalized request fields with `'|'`;
* the calculator in `src/unnamed/part_003` (types from `types.ts`),
  whose `buildCacheKey` builds a `quote:`-prefixed colon-joined key.

JavaScript numbers are embedded as `ℚ`; the rendering `toString` stands
for the JavaScript number-to-string conversion.
-/

/-- JavaScript `s || d` on an optional string. -/
def jsOrStr (o : Option String) (d : String) : String :=
  match o with
  | some s => if s == "" then d else s
  | none => d

/-- JavaScript `x || d` on an optional number (0 is falsy). -/
def jsOrRat (o : Option ℚ) (d : ℚ) : ℚ :=
  match o with
  | some x => if x = 0 then d else x
  | none => d

/-- `Array.prototype.join('|')` on the key-parts list. -/
def joinBar : List String → String
  | [] => ""
  | [a] => a
  | a :: b :: rest => a ++ "|" ++ joinBar (b :: rest)

/-- `DsvAddress` of `plugin-options.types.ts`. -/
structure DsvAddress where
  name : Option String
  country : String
  city : String
  zipCode : Option String
  streetLine1 : Option String
  streetLine2 : Option String
  mdm : Option String
deriving DecidableEq

/-- `DsvContact` of `plugin-options.types.ts`. -/
structure DsvContact where
  email : String
  firstName : Option String
  lastName : Option String
  phone : Option String
deriving DecidableEq

/-- Air-specific quote request data. -/
structure DsvAirInfo where
  originAirport : Option String
  destinationAirport : Option String
  serviceLevel : Option String
deriving DecidableEq

/-- Sea-specific quote request data. -/
structure DsvSeaInfo where
  originPort : Option String
  destinationPort : Option String
  serviceLevel : Option String
deriving DecidableEq

/-- Road-specific quote request data. -/
structure DsvRoadInfo where
  serviceLevel : Option String
deriving DecidableEq

/-- Rail-specific quote request data. -/
structure DsvRailInfo where
  serviceLevel : Option String
deriving DecidableEq

/-- `DsvPackage` of `plugin-options.types.ts`. -/
structure DsvPackage where
  goodsDescription : String
  packageType : String
  quantity : Int
  totalWeight : ℚ
  length : ℚ
  width : ℚ
  height : ℚ
  value : Option ℚ
  currency : Option String
deriving DecidableEq

/-- `DsvQuoteRequest` of `plugin-options.types.ts`.  `from`/`to` are Lean
keywords, hence the fields are named `from_`/`to_`; `unitsOfMeasurement`
is kept abstractly as a string since no embedded operation reads into
it. -/
structure DsvQuoteRequest where
  requestedBy : DsvContact
  bookingParty : DsvAddress
  from_ : DsvAddress
  to_ : DsvAddress
  cargoType : String
  packages : List DsvPackage
  totalWeight : ℚ
  unitsOfMeasurement : String
  air : Option DsvAirInfo
  sea : Option DsvSeaInfo
  road : Option DsvRoadInfo
  rail : Option DsvRailInfo
deriving DecidableEq

/-- The `'air'`-tagged parts pushed when `request.air` is present. -/
def airPart (o : Option DsvAirInfo) : List String :=
  match o with
  | some a => ["air", jsOrStr a.serviceLevel ""]
  | none => []

/-- The `'sea'`-tagged parts pushed when `request.sea` is present. -/
def seaPart (o : Option DsvSeaInfo) : List String :=
  match o with
  | some a => ["sea", jsOrStr a.serviceLevel ""]
  | none => []

/-- The `'road'`-tagged parts pushed when `request.road` is present. -/
def roadPart (o : Option DsvRoadInfo) : List String :=
  match o with
  | some a => ["road", jsOrStr a.serviceLevel ""]
  | none => []

/-- The `'rail'`-tagged parts pushed when `request.rail` is present. -/
def railPart (o : Option DsvRailInfo) : List String :=
  match o with
  | some a => ["rail", jsOrStr a.serviceLevel ""]
  | none => []

/-- The key-parts list of `DsvQuoteService.generateCacheKey`
(`src/unnamed/part_002`). -/
def keyParts (r : DsvQuoteRequest) : List String :=
  [r.from_.country, r.from_.city, jsOrStr r.from_.zipCode "",
   r.to_.country, r.to_.city, jsOrStr r.to_.zipCode "",
   toString r.totalWeight, toString r.packages.length, r.cargoType]
    ++ airPart r.air ++ seaPart r.sea ++ roadPart r.road ++ railPart r.rail

/-- `DsvQuoteService.generateCacheKey`: the key parts joined with `'|'`. -/
def generateCacheKey (r : DsvQuoteRequest) : String :=
  joinBar (keyParts r)

/-- The projection of a quote request onto exactly the data
`generateCacheKey` reads. -/
def cacheKeyFields (r : DsvQuoteRequest) :
    (String × String × Option String) × (String × String × Option String) ×
      ℚ × Nat × String × Option (Option String) × Option (Option String) ×
      Option (Option String) × Option (Option String) :=
  ((r.from_.country, r.from_.city, r.from_.zipCode),
   (r.to_.country, r.to_.city, r.to_.zipCode),
   r.totalWeight, r.packages.length, r.cargoType,
   r.air.map (fun a => a.serviceLevel), r.sea.map (fun a => a.serviceLevel),
   r.road.map (fun a => a.serviceLevel), r.rail.map (fun a => a.serviceLevel))

/-- Origin/destination address shape of `DsvQuoteRequest` in `types.ts`
(`src/unnamed/part_003` generation). -/
structure DsvLocation3 where
  countryCode : String
  postalCode : Option String
  city : Option String
deriving DecidableEq

/-- `DsvPackage` of `types.ts` (`src/unnamed/part_003` generation). -/
structure DsvPackage3 where
  quantity : Int
  packageType : Option String
  weight : ℚ
  length : Option ℚ
  width : Option ℚ
  height : Option ℚ
  volume : Option ℚ
  description : Option String
  hsCode : Option String
  value : Option ℚ
  currency : Option String
deriving DecidableEq

/-- `DsvQuoteRequest` of `types.ts` (`src/unnamed/part_003`
generation). -/
structure DsvQuoteRequest3 where
  transportMode : String
  origin : DsvLocation3
  destination : DsvLocation3
  packages : List DsvPackage3
  serviceLevel : Option String
  includeInsurance : Option Bool
  pickupDate : Option String
  deliveryDate : Option String
  customerReference : Option String
deriving DecidableEq

/-- `buildCacheKey` of `src/unnamed/part_003`:
`quote:<mode>:<originCountry>:<destCountry>:<firstPackageWeight or 0>`. -/
def buildCacheKey (r : DsvQuoteRequest3) : String :=
  "quote:" ++ r.transportMode ++ ":" ++ r.origin.countryCode ++ ":"
    ++ r.destination.countryCode ++ ":"
    ++ toString (jsOrRat (r.packages.head?.map (fun p => p.weight)) 0)

/-- The projection of a `types.ts` quote request onto exactly the data
`buildCacheKey` reads. -/
def buildKeyFields (r : DsvQuoteRequest3) : String × String × String × ℚ :=
  (r.transportMode, r.origin.countryCode, r.destination.countryCode,
   jsOrRat (r.packages.head?.map (fun p => p.weight)) 0)

/-- A concrete package used by the C4 counterexample. -/
def pkgC4 : DsvPackage3 :=
  { quantity := 1, packageType := some "Box", weight := 5,
    length := none, width := none, height := none, volume := none,
    description := some "Order X", hsCode := none, value := some 100,
    currency := some "ZAR" }

/-- Concrete `types.ts` quote request with a single package. -/
def reqC4a : DsvQuoteRequest3 :=
  { transportMode := "Air", origin := { countryCode := "ZA", postalCode := none, city := none },
    destination := { countryCode := "US", postalCode := none, city := none },
    packages := [pkgC4], serviceLevel := some "Standard", includeInsurance := some false,
    pickupDate := none, deliveryDate := none, customerReference := none }

/-- `reqC4a` with a second identical package: the two requests differ in
package count only. -/
def reqC4b : DsvQuoteRequest3 :=
  { transportMode := "Air", origin := { countryCode := "ZA", postalCode := none, city := none },
    destination := { countryCode := "US", postalCode := none, city := none },
    packages := [pkgC4, pkgC4], serviceLevel := some "Standard", includeInsurance := some false,
    pickupDate := none, deliveryDate := none, customerReference := none }

/-!
Quote lookup, booking submission and calculator embedding
(`src/unnamed/part_002`), and the order/package converters
(`src/unnamed/part_004`, `src/src/utils/booking-converter.ts`).
-/

/-- Price inside a quote option (`DsvPrice`). -/
structure DsvPrice where
  amount : ℚ
  currency : String
deriving DecidableEq

/-- One option of a quote response. -/
structure DsvQuoteOption where
  optionId : String
  carrier : String
  transportMode : String
  serviceLevel : String
  transitTimeDays : Int
  totalPrice : DsvPrice
deriving DecidableEq

/-- `DsvQuoteResponse` as read by the quote service and calculator. -/
structure DsvQuoteResponse where
  quoteRequestId : String
  status : String
  options : List DsvQuoteOption
deriving DecidableEq

/-- `CachedQuote` stored in the quote cache. -/
structure CachedQuote where
  quoteId : String
  response : DsvQuoteResponse
  cachedAt : Int
deriving DecidableEq

/-- Modelled from the spec: the quote store is a `node-cache` instance, a
third-party library whose code is not part of this repository.  Per the
specification, "entries expire automatically after a configured TTL" and
"entries inserted into the quote cache are unreachable after their TTL
elapses (cache miss occurs on the next lookup)": an entry is reachable
strictly before `insertedAt + ttl` and misses at or after that instant.
Entries are listed newest first; `ttlSeconds` is the `stdTTL` in
seconds. -/
structure QuoteCache where
  ttlSeconds : Int
  entries : List (String × Int × CachedQuote)
deriving DecidableEq

/-- Lookup in the TTL cache model (see `QuoteCache`). -/
def cacheGet (c : QuoteCache) (now : Int) (k : String) : Option CachedQuote :=
  match c.entries.find? (fun e => e.1 == k) with
  | some (_, ins, v) => if now < ins + c.ttlSeconds * 1000 then some v else none
  | none => none

/-- Insertion into the TTL cache model (see `QuoteCache`). -/
def cacheSet (c : QuoteCache) (now : Int) (k : String) (v : CachedQuote) : QuoteCache :=
  { c with entries := (k, now, v) :: c.entries }

/-- `options.quoteCacheTTL || 300` evaluated by `DsvQuoteService.init`. -/
def quoteCacheTTLof (o : Option Int) : Int := jsOrInt o 300

/-- `DsvQuoteService.getQuote` (`src/unnamed/part_002`): compute the cache
key, return a cached response when present, otherwise obtain a token and
call the quote endpoint, caching a success and wrapping any failure in
`DSV Quote API failed: <formatted>`.  `tokenNet`/`quoteNet` are the
outcomes of the two network steps (carrying the already-formatted error
message on failure); the boolean records whether the authenticated
network path ran. -/
def getQuoteS (now : Int) (cache : QuoteCache) (r : DsvQuoteRequest)
    (tokenNet : Except String String) (quoteNet : Except String DsvQuoteResponse) :
    Except String DsvQuoteResponse × QuoteCache × Bool :=
  let cacheKey := generateCacheKey r
  match cacheGet cache now cacheKey with
  | some cq => (Except.ok cq.response, cache, false)
  | none =>
    match tokenNet with
    | Except.error m => (Except.error ("DSV Quote API failed: " ++ m), cache, true)
    | Except.ok _ =>
      match quoteNet with
      | Except.ok resp =>
        (Except.ok resp,
         cacheSet cache now cacheKey
           { quoteId := resp.quoteRequestId, response := resp, cachedAt := now },
         true)
      | Except.error m => (Except.error ("DSV Quote API failed: " ++ m), cache, true)

/-- `DsvBookingResponse` as read by the booking service. -/
structure DsvBookingResponse where
  bookingId : String
  shipmentId : Option String
  status : String
  carrier : Option String
deriving DecidableEq

/-- `DsvBookingService.createBooking` (`src/unnamed/part_001`): obtain a
token, post the booking, and wrap any caught failure in
`DSV Booking API failed: <formatted>`. -/
def createBookingS (tokenNet : Except String String)
    (postNet : Except String DsvBookingResponse) : Except String DsvBookingResponse :=
  match tokenNet with
  | Except.error m => Except.error ("DSV Booking API failed: " ++ m)
  | Except.ok _ =>
    match postNet with
    | Except.ok resp => Except.ok resp
    | Except.error m => Except.error ("DSV Booking API failed: " ++ m)

/-- The parts of a Vendure `ShippingCalculationResult` the embedded
calculator writes; the metadata map is represented by the fields the
calculator puts into it. -/
structure ShippingCalcResult where
  price : ℚ
  priceIncludesTax : Bool
  taxRate : Int
  metaError : Option String
  metaMessage : Option String
  metaQuoteId : Option String
deriving DecidableEq

/-- The zero-price fallback result of the part_002 calculator's quote
path: `price: 0` with the error message carried in metadata. -/
def calcFallback (pricesIncludeTax : Bool) (taxRate : Int) (m : String) :
    ShippingCalcResult :=
  { price := 0, priceIncludesTax := pricesIncludeTax, taxRate := taxRate,
    metaError := some "Failed to get quote from DSV", metaMessage := some m,
    metaQuoteId := none }

/-- `Array.prototype.join(', ')` on the validation errors. -/
def joinComma : List String → String
  | [] => ""
  | [a] => a
  | a :: b :: rest => a ++ ", " ++ joinComma (b :: rest)

/-- The quote-enabled branch of `dsvRateCalculator.calculate`
(`src/unnamed/part_002`, lines 1056-1191): every throw inside the `try`
block — validation failure, quote failure, or an empty option list — is
caught and becomes the zero-price fallback result; a successful quote's
first option is priced in cents. -/
def dsvCalculateQuotePath (pricesIncludeTax : Bool) (taxRate : Int)
    (validationErrors : List String)
    (quoteResult : Except String DsvQuoteResponse) : ShippingCalcResult :=
  if validationErrors ≠ [] then
    calcFallback pricesIncludeTax taxRate
      ("Order validation failed: " ++ joinComma validationErrors)
  else
    match quoteResult with
    | Except.error m => calcFallback pricesIncludeTax taxRate m
    | Except.ok resp =>
      match resp.options with
      | [] => calcFallback pricesIncludeTax taxRate
          "No shipping options available for this route"
      | o :: _ =>
        { price := o.totalPrice.amount * 100, priceIncludesTax := pricesIncludeTax,
          taxRate := taxRate, metaError := none, metaMessage := none,
          metaQuoteId := some resp.quoteRequestId }

/-- JavaScript `s || d` on a plain string. -/
def jsStr (s d : String) : String := if s == "" then d else s

/-- JavaScript `s || undefined` on an optional string. -/
def jsOptStr (o : Option String) : Option String :=
  match o with
  | some s => if s == "" then none else some s
  | none => none

/-- The weight/dimension custom fields the converters read from a product
variant. -/
structure VariantCustomFields where
  weight : Option ℚ
  length : Option ℚ
  width : Option ℚ
  height : Option ℚ
  shippingWeight : Option ℚ
  packageLength : Option ℚ
  packageWidth : Option ℚ
  packageHeight : Option ℚ
deriving DecidableEq

/-- A variant with none of the weight/dimension custom fields set. -/
def noCustomFields : VariantCustomFields :=
  { weight := none, length := none, width := none, height := none,
    shippingWeight := none, packageLength := none, packageWidth := none,
    packageHeight := none }

/-- Product variant data the converters read. -/
structure ProductVariant where
  sku : String
  name : String
  customFields : VariantCustomFields
deriving DecidableEq

/-- Order line data the converters read; `orderCode` embeds
`line.order?.code`. -/
structure OrderLine where
  productVariant : ProductVariant
  quantity : Int
  proratedLinePrice : ℚ
  orderCode : Option String
deriving DecidableEq

/-- Order data `calculatePackages` reads. -/
structure Order where
  lines : List OrderLine
  currencyCode : String
  totalWithTax : ℚ
  code : String
deriving DecidableEq

/-- `determinePackageType` of `src/unnamed/part_004`: the ordered decision
table from weight/dimension thresholds. -/
def determinePackageType (weight length width height : ℚ) : String :=
  if weight < 0.5 ∧ length < 35 ∧ width < 25 ∧ height < 2 then "PKG"
  else if length > 100 ∧ width < 15 ∧ height < 15 then "RLL"
  else if weight > 500 ∨ length > 120 ∨ width > 100 ∨ height > 100 then "PLT"
  else if weight > 100 then "CRT"
  else "CTN"

/-- The decision table exactly as the specification words it, written
independently for comparison with the source-derived
`determinePackageType`: PKG when weight < 0.5 and length < 35 and
width < 25 and height < 2; otherwise RLL when length > 100 and width < 15
and height < 15; otherwise PLT when weight > 500 or length > 120 or
width > 100 or height > 100; otherwise CRT when weight > 100; otherwise
CTN. -/
def specPackageType (weight length width height : ℚ) : String :=
  if weight < 0.5 ∧ length < 35 ∧ width < 25 ∧ height < 2 then "PKG"
  else if length > 100 ∧ width < 15 ∧ height < 15 then "RLL"
  else if weight > 500 ∨ length > 120 ∨ width > 100 ∨ height > 100 then "PLT"
  else if weight > 100 then "CRT"
  else "CTN"

/-- One step of the `itemGroups` map construction inside
`calculatePackages`: a line with a known sku adds its quantity to the
stored group, otherwise a new group is appended (JavaScript `Map`
preserves insertion order). -/
def addLine (acc : List (String × OrderLine × Int)) (line : OrderLine) :
    List (String × OrderLine × Int) :=
  if acc.any (fun e => e.1 == line.productVariant.sku) then
    acc.map (fun e =>
      if e.1 == line.productVariant.sku then (e.1, e.2.1, e.2.2 + line.quantity) else e)
  else acc ++ [(line.productVariant.sku, line, line.quantity)]

/-- The `itemGroups` map of `calculatePackages`, in insertion order. -/
def groupBySku (lines : List OrderLine) : List (String × OrderLine × Int) :=
  lines.foldl addLine []

/-- The package `calculatePackages` builds for one sku group: missing
weight defaults to 1 kg and missing dimensions to 30, 20 and 10 cm. -/
def packageOfGroup (currency : String) (g : String × OrderLine × Int) : DsvPackage :=
  let line := g.2.1
  let quantity := g.2.2
  let weightPerItem := jsOrRat line.productVariant.customFields.weight 1
  let itemWeight := weightPerItem * (quantity : ℚ)
  let length := jsOrRat line.productVariant.customFields.length 30
  let width := jsOrRat line.productVariant.customFields.width 20
  let height := jsOrRat line.productVariant.customFields.height 10
  { goodsDescription := line.productVariant.name
    packageType := determinePackageType itemWeight length width height
    quantity := quantity
    totalWeight := itemWeight
    length := length
    width := width
    height := height
    value := some line.proratedLinePrice
    currency := some currency }

/-- The weight contributed by one sku group (`itemWeight` accumulation). -/
def groupWeight (g : String × OrderLine × Int) : ℚ :=
  jsOrRat g.2.1.productVariant.customFields.weight 1 * (g.2.2 : ℚ)

/-- The result record of `calculatePackages`. -/
structure CalculatedPackages where
  packages : List DsvPackage
  totalWeight : ℚ
  totalValue : ℚ
deriving DecidableEq

/-- The default carton `calculatePackages` falls back to when no package
was produced. -/
def defaultCartonPackage (order : Order) : DsvPackage :=
  { goodsDescription := "General Merchandise"
    packageType := "CTN"
    quantity := 1
    totalWeight := 1
    length := 30
    width := 20
    height := 10
    value := some order.totalWithTax
    currency := some order.currencyCode }

/-- `calculatePackages` of `src/unnamed/part_004`: group lines by sku,
convert each group to a package, and fall back to a single default carton
when no package was produced. -/
def calculatePackages (order : Order) : CalculatedPackages :=
  let groups := groupBySku order.lines
  let packages := groups.map (packageOfGroup order.currencyCode)
  let totalWeight := (groups.map groupWeight).sum
  let totalValue := (groups.map (fun g => g.2.1.proratedLinePrice)).sum
  if packages.isEmpty then
    { packages := [defaultCartonPackage order]
      totalWeight := 1
      totalValue := order.totalWithTax }
  else
    { packages := packages, totalWeight := totalWeight, totalValue := totalValue }

/-- Vendure customer data `convertContact` reads. -/
structure Customer where
  emailAddress : Option String
  firstName : Option String
  lastName : Option String
  phoneNumber : Option String
deriving DecidableEq

/-- `convertContact` of `src/unnamed/part_004`: a fixed fallback contact
for a missing customer, field-wise defaults otherwise. -/
def convertContact (customer : Option Customer) : DsvContact :=
  match customer with
  | none =>
    { email := "noreply@example.com", firstName := some "Customer",
      lastName := some "User", phone := none }
  | some cust =>
    { email := jsOrStr cust.emailAddress "noreply@example.com"
      firstName := some (jsOrStr cust.firstName "Customer")
      lastName := some (jsOrStr cust.lastName "User")
      phone := jsOptStr cust.phoneNumber }

/-- `DsvBookingPackage` produced by `convertToBookingPackages`. -/
structure DsvBookingPackage where
  quantity : Int
  packageType : String
  totalWeight : ℚ
  netWeight : ℚ
  length : ℚ
  height : ℚ
  width : ℚ
  stackable : Bool
  totalVolume : ℚ
  palletSpace : Option Int
  loadingMeters : ℚ
  description : String
  shippingMarks : Option String
deriving DecidableEq

/-- The booking defaults `convertToBookingPackages` reads from the plugin
options. -/
structure BookingDefaults where
  packageType : String
  stackable : Bool
deriving DecidableEq

/-- The per-line body of `convertToBookingPackages`
(`src/src/utils/booking-converter.ts`): missing weight defaults to 1 kg
(after trying `shippingWeight`), missing dimensions to 30, 20 and 20 cm
(after trying the `package*` variants); `index` is the map index used for
the description fallback. -/
def bookingPackageOfLine (defaults : BookingDefaults) (index : Nat) (line : OrderLine) :
    DsvBookingPackage :=
  let cf := line.productVariant.customFields
  let weight := jsOrRat cf.weight (jsOrRat cf.shippingWeight 1)
  let length := jsOrRat cf.length (jsOrRat cf.packageLength 30)
  let width := jsOrRat cf.width (jsOrRat cf.packageWidth 20)
  let height := jsOrRat cf.height (jsOrRat cf.packageHeight 20)
  let volumeCm3 := length * width * height
  let volumeM3 := volumeCm3 / 1000000
  let description := jsStr line.productVariant.name
    (jsStr line.productVariant.sku ("Product " ++ toString (index + 1)))
  { quantity := line.quantity
    packageType := defaults.packageType
    totalWeight := weight * (line.quantity : ℚ)
    netWeight := weight * (line.quantity : ℚ)
    length := length
    height := height
    width := width
    stackable := defaults.stackable
    totalVolume := volumeM3 * (line.quantity : ℚ)
    palletSpace := none
    loadingMeters := 0
    description := description
    shippingMarks := jsOptStr line.orderCode }

/-- `convertToBookingPackages`: `lines.map((line, index) => ...)`. -/
def convertToBookingPackages (defaults : BookingDefaults) (lines : List OrderLine) :
    List DsvBookingPackage :=
  ((List.range lines.length).zip lines).map
    (fun p => bookingPackageOfLine defaults p.1 p.2)

/-- The plugin's environment option (`'test' | 'production'`). -/
inductive DsvEnvironment where
  | test
  | production
deriving DecidableEq

/-- A booking-party address as `submitBooking` touches it: the `mdm`
field plus the untouched remainder of the address abstracted as
`rest`. -/
structure MdmAddress where
  mdm : Option String
  rest : String
deriving DecidableEq

/-- A party record holding such an address. -/
structure MdmParty where
  address : MdmAddress
deriving DecidableEq

/-- The parties object of a booking request: the two parties
`submitBooking` may rewrite plus the untouched remainder. -/
structure BookingParties where
  bookingParty : MdmParty
  freightPayer : MdmParty
  othersRest : String
deriving DecidableEq

/-- A booking request as `DsvApiService.submitBooking`
(`src/unnamed/part_002`) sees it: the parties plus the untouched
remainder of the body. -/
structure BookingRequest2 where
  parties : BookingParties
  bodyRest : String
deriving DecidableEq

/-- The test-environment MDM fill-in at the top of
`DsvApiService.submitBooking`: the value of the (mutated in place)
request that is then posted to the booking endpoint. -/
def submitBookingPrep (env : DsvEnvironment) (testMdmAccount : String)
    (req : BookingRequest2) : BookingRequest2 :=
  if env = DsvEnvironment.test then
    let req1 :=
      if strFalsy req.parties.bookingParty.address.mdm then
        { req with parties := { req.parties with
            bookingParty := { address := { req.parties.bookingParty.address with
              mdm := some testMdmAccount } } } }
      else req
    if strFalsy req1.parties.freightPayer.address.mdm then
      { req1 with parties := { req1.parties with
          freightPayer := { address := { req1.parties.freightPayer.address with
            mdm := some testMdmAccount } } } }
    else req1
  else req


/-- A concrete `plugin-options.types` quote request used to instantiate
the cache-key and quote-cache theorems. -/
def reqDemo : DsvQuoteRequest :=
  { requestedBy :=
      { email := "c@x.io", firstName := some "Ann", lastName := none, phone := none }
    bookingParty :=
      { name := some "BP", country := "ZA", city := "Johannesburg"
        zipCode := some "2000", streetLine1 := some "1 Main", streetLine2 := none
        mdm := some "123" }
    from_ :=
      { name := some "Warehouse", country := "ZA", city := "Johannesburg"
        zipCode := some "2000", streetLine1 := some "1 Main", streetLine2 := none
        mdm := none }
    to_ :=
      { name := some "Ann", country := "US", city := "Boston"
        zipCode := some "02101", streetLine1 := some "2 Elm", streetLine2 := none
        mdm := none }
    cargoType := "LCL"
    packages := []
    totalWeight := 5
    unitsOfMeasurement := "CM-KG-M3"
    air :=
      some { originAirport := some "JNB", destinationAirport := some "BOS"
             serviceLevel := some "Standard" }
    sea := none
    road := none
    rail := none }

/-- Helper: a `getAccessToken` call of implementation A whose cached token is
no longer valid and that returns successfully has obtained its token from one
of the offered network exchanges, overwritten the cache with it together with
the computed absolute expiry, and completed exactly one exchange. -/
theorem getAccessTokenA_miss_ok (now : Int) (c : CachedToken)
    (refreshNet acquireNet : NetOutcome)
    (h : isTokenValidA now c = false) (tok : String)
    (htok : (getAccessTokenA now (some c) refreshNet acquireNet).1 = Except.ok tok) :
    ∃ resp : DsvTokenResponse,
      (refreshNet = NetOutcome.ok resp ∨ acquireNet = NetOutcome.ok resp) ∧
      tok = resp.access_token ∧
      (∃ c2, (getAccessTokenA now (some c) refreshNet acquireNet).2.1 = some c2 ∧
        c2.token = resp.access_token ∧
        c2.expiresAt = now + resp.expires_in * 1000) ∧
      countSuccess (getAccessTokenA now (some c) refreshNet acquireNet).2.2 = 1 := by
  cases hrt : c.refreshToken with
  | some rt =>
    cases hrv : isRefreshTokenValidA now c with
    | true =>
      cases refreshNet with
      | ok resp =>
        refine ⟨resp, Or.inl rfl, ?_, ?_, ?_⟩
        · simp [getAccessTokenA, h, hrt, hrv] at htok
          exact htok.symm
        · exact ⟨cacheFromRefresh now resp rt,
            by simp [getAccessTokenA, h, hrt, hrv], rfl, rfl⟩
        · simp [getAccessTokenA, h, hrt, hrv, countSuccess, AuthEvent.success]
      | err m =>
        cases acquireNet with
        | ok resp =>
          refine ⟨resp, Or.inr rfl, ?_, ?_, ?_⟩
          · simp [getAccessTokenA, h, hrt, hrv, acquireTokenA] at htok
            exact htok.symm
          · exact ⟨cacheFromAcquire now resp,
              by simp [getAccessTokenA, h, hrt, hrv, acquireTokenA], rfl, rfl⟩
          · simp [getAccessTokenA, h, hrt, hrv, acquireTokenA, NetOutcome.isOk,
              countSuccess, AuthEvent.success]
        | err m2 =>
          simp [getAccessTokenA, h, hrt, hrv, acquireTokenA] at htok
    | false =>
      cases acquireNet with
      | ok resp =>
        refine ⟨resp, Or.inr rfl, ?_, ?_, ?_⟩
        · simp [getAccessTokenA, h, hrt, hrv, acquireTokenA] at htok
          exact htok.symm
        · exact ⟨cacheFromAcquire now resp,
            by simp [getAccessTokenA, h, hrt, hrv, acquireTokenA], rfl, rfl⟩
        · simp [getAccessTokenA, h, hrt, hrv, acquireTokenA, NetOutcome.isOk,
            countSuccess, AuthEvent.success]
      | err m2 =>
        simp [getAccessTokenA, h, hrt, hrv, acquireTokenA] at htok
  | none =>
    cases acquireNet with
    | ok resp =>
      refine ⟨resp, Or.inr rfl, ?_, ?_, ?_⟩
      · simp [getAccessTokenA, h, hrt, acquireTokenA] at htok
        exact htok.symm
      · exact ⟨cacheFromAcquire now resp,
          by simp [getAccessTokenA, h, hrt, acquireTokenA], rfl, rfl⟩
      · simp [getAccessTokenA, h, hrt, acquireTokenA, NetOutcome.isOk,
          countSuccess, AuthEvent.success]
    | err m2 =>
      simp [getAccessTokenA, h, hrt, acquireTokenA] at htok

/-- C1: For every call to the auth service's `getAccessToken`: if a token is
cached and the current time is strictly before the cached expiry minus the
fixed buffer (300 seconds in implementation B, 60 seconds in implementation
A), the call returns the cached token string and performs no network
credential exchange (empty trace, state unchanged); otherwise the call
performs a credential exchange and, when the exchange succeeds, overwrites
the cached token together with its computed absolute expiry
(`now + expires_in` seconds; implementation B stores that expiry with the
buffer already subtracted) and returns the newly obtained token. -/
theorem c1_getAccessToken_cached_or_exchange
    (now : Int) (c : CachedToken) (s : AuthStateB)
    (refreshNet acquireNet : NetOutcome) (netB : NetOutcomeB) :
    (isTokenValidA now c = true →
      getAccessTokenA now (some c) refreshNet acquireNet = (Except.ok c.token, some c, [])) ∧
    (isTokenValidA now c = false →
      ∀ tok, (getAccessTokenA now (some c) refreshNet acquireNet).1 = Except.ok tok →
        ∃ resp : DsvTokenResponse,
          (refreshNet = NetOutcome.ok resp ∨ acquireNet = NetOutcome.ok resp) ∧
          tok = resp.access_token ∧
          (∃ c2, (getAccessTokenA now (some c) refreshNet acquireNet).2.1 = some c2 ∧
            c2.token = resp.access_token ∧
            c2.expiresAt = now + resp.expires_in * 1000) ∧
          countSuccess (getAccessTokenA now (some c) refreshNet acquireNet).2.2 = 1) ∧
    (isTokenValidB s now = true →
      ∃ tok, s.accessToken = some tok ∧
        getAccessTokenB now s netB = (Except.ok tok, s, [])) ∧
    (isTokenValidB s now = false →
      ∀ resp tok, netB = NetOutcomeB.ok resp → resp.access_token = some tok → tok ≠ "" →
        getAccessTokenB now s netB =
          (Except.ok tok,
           { accessToken := some tok
             tokenExpiresAt :=
               some (now + (jsOrInt resp.expires_in 3600 - tokenBufferSecondsB) * 1000) },
           [true])) := by
  refine ⟨?_, ?_, ?_, ?_⟩
  · intro h
    simp [getAccessTokenA, h]
  · intro h tok htok
    exact getAccessTokenA_miss_ok now c refreshNet acquireNet h tok htok
  · intro h
    cases hat : s.accessToken with
    | none => simp [isTokenValidB, hat] at h
    | some tok =>
      exact ⟨tok, rfl, by simp [getAccessTokenB, h, hat]⟩
  · intro h resp tok hnet hat htok
    subst hnet
    simp [getAccessTokenB, h, refreshTokenB, hat, htok]

/-- Concrete instantiation of `c1_getAccessToken_cached_or_exchange`:
implementation A returns the cached token while it is fresh, and
implementation B with an empty cache exchanges credentials and caches
the new token. -/
theorem c1_getAccessToken_cached_or_exchange_witness :
    getAccessTokenA 0
        (some { token := "tokA", expiresAt := 1000000, refreshToken := none,
                refreshExpiresAt := none })
        (NetOutcome.err "e1") (NetOutcome.err "e2")
      = (Except.ok "tokA",
         some { token := "tokA", expiresAt := 1000000, refreshToken := none,
                refreshExpiresAt := none }, []) ∧
    getAccessTokenB 5 { accessToken := none, tokenExpiresAt := none }
        (NetOutcomeB.ok { access_token := some "tokB", expires_in := some 600 })
      = (Except.ok "tokB",
         { accessToken := some "tokB", tokenExpiresAt := some 300005 }, [true]) := by
  constructor
  · exact (c1_getAccessToken_cached_or_exchange 0
      { token := "tokA", expiresAt := 1000000, refreshToken := none, refreshExpiresAt := none }
      { accessToken := none, tokenExpiresAt := none }
      (NetOutcome.err "e1") (NetOutcome.err "e2")
      (NetOutcomeB.otherErr "z")).1 (by decide)
  · exact (c1_getAccessToken_cached_or_exchange 5
      { token := "x", expiresAt := 0, refreshToken := none, refreshExpiresAt := none }
      { accessToken := none, tokenExpiresAt := none }
      (NetOutcome.err "e1") (NetOutcome.err "e2")
      (NetOutcomeB.ok { access_token := some "tokB", expires_in := some 600 })).2.2.2
      (by decide) { access_token := some "tokB", expires_in := some 600 } "tokB"
      rfl rfl (by decide)

/-- Helper: implementation B performs no network exchange over any sequence of
calls at times where the cached token is still valid. -/
theorem runCallsB_cached (s : AuthStateB) (oracle : Int → NetOutcomeB) :
    ∀ ts : List Int, (∀ t ∈ ts, isTokenValidB s t = true) →
      runCallsB ts s oracle = (s, [])
  | [], _ => rfl
  | t :: ts, h => by
    have hv : isTokenValidB s t = true := h t (by simp)
    have htl : ∀ t2 ∈ ts, isTokenValidB s t2 = true := fun t2 ht2 => h t2 (by simp [ht2])
    simp [runCallsB, getAccessTokenB, hv, runCallsB_cached s oracle ts htl]

/-- Helper: implementation A performs no network exchange over any sequence of
calls at times where the cached token is still valid. -/
theorem runCallsA_cached (c : CachedToken) (oracle : Int → NetOutcome × NetOutcome) :
    ∀ ts : List Int, (∀ t ∈ ts, isTokenValidA t c = true) →
      runCallsA ts (some c) oracle = (some c, [])
  | [], _ => rfl
  | t :: ts, h => by
    have hv : isTokenValidA t c = true := h t (by simp)
    have htl : ∀ t2 ∈ ts, isTokenValidA t2 c = true := fun t2 ht2 => h t2 (by simp [ht2])
    simp [runCallsA, getAccessTokenA, hv, runCallsA_cached c oracle ts htl]

/-- C2: Over any sequence of `getAccessToken` calls whose call times all fall
within one validity window (after a successful exchange and strictly before
that token's expiry minus the buffer), exactly one network credential
exchange occurs in total — the one that established the window; and any
single call made at or after expiry minus buffer (so the cached token is no
longer valid) performs exactly one completed credential exchange before
returning.  Parts (i)/(iii) treat implementation B, parts (ii)/(iv)
implementation A; in (iv) a failed refresh-grant attempt may precede the one
completed exchange, so the count is of completed exchanges. -/
theorem c2_one_exchange_per_window
    (t0 : Int) (ts : List Int)
    (s0 : AuthStateB) (resp : TokenRespB) (tok : String) (e : Int)
    (oracleB : Int → NetOutcomeB)
    (respA : DsvTokenResponse) (oracleA : Int → NetOutcome × NetOutcome)
    (now : Int) (s : AuthStateB) (netB : NetOutcomeB)
    (c : CachedToken) (refreshNet acquireNet : NetOutcome) :
    (isTokenValidB s0 t0 = false →
      oracleB t0 = NetOutcomeB.ok resp →
      resp.access_token = some tok → tok ≠ "" →
      resp.expires_in = some e → e ≠ 0 →
      (∀ t ∈ ts, t < t0 + (e - tokenBufferSecondsB) * 1000) →
      runCallsB (t0 :: ts) s0 oracleB =
        ({ accessToken := some tok
           tokenExpiresAt := some (t0 + (e - tokenBufferSecondsB) * 1000) }, [true])) ∧
    ((oracleA t0).2 = NetOutcome.ok respA →
      (∀ t ∈ ts, t < t0 + respA.expires_in * 1000 - tokenBufferSecondsA * 1000) →
      runCallsA (t0 :: ts) none oracleA =
        (some (cacheFromAcquire t0 respA), [AuthEvent.acquireReq true])) ∧
    (isTokenValidB s now = false →
      (getAccessTokenB now s netB).2.2.length = 1 ∧
      (∀ tk, (getAccessTokenB now s netB).1 = Except.ok tk →
        (getAccessTokenB now s netB).2.2 = [true])) ∧
    (isTokenValidA now c = false →
      ∀ tk, (getAccessTokenA now (some c) refreshNet acquireNet).1 = Except.ok tk →
        countSuccess (getAccessTokenA now (some c) refreshNet acquireNet).2.2 = 1) := by
  refine ⟨?_, ?_, ?_, ?_⟩
  · intro h0 hor hat htok he he0 hwin
    have hfirst : getAccessTokenB t0 s0 (oracleB t0) =
        (Except.ok tok,
         { accessToken := some tok
           tokenExpiresAt := some (t0 + (e - tokenBufferSecondsB) * 1000) }, [true]) := by
      rw [hor]
      simp [getAccessTokenB, h0, refreshTokenB, hat, htok, he, jsOrInt, he0]
    have hrest := runCallsB_cached
      { accessToken := some tok
        tokenExpiresAt := some (t0 + (e - tokenBufferSecondsB) * 1000) } oracleB ts
      (fun t ht => by simp [isTokenValidB, hwin t ht])
    simp [runCallsB, hfirst, hrest]
  · intro hor hwin
    have hfirst : getAccessTokenA t0 none (oracleA t0).1 (oracleA t0).2 =
        (Except.ok respA.access_token, some (cacheFromAcquire t0 respA),
          [AuthEvent.acquireReq true]) := by
      rw [getAccessTokenA, hor]
      simp [acquireTokenA, NetOutcome.isOk, hor]
    have hrest := runCallsA_cached (cacheFromAcquire t0 respA) oracleA ts
      (fun t ht => by
        simp [isTokenValidA, cacheFromAcquire]
        have := hwin t ht
        omega)
    simp [runCallsA, hfirst, hrest]
  · intro h
    constructor
    · rcases hr : refreshTokenB now s netB with ⟨res, s2⟩
      cases res with
      | error m => simp [getAccessTokenB, h, hr]
      | ok u =>
        cases hs2 : s2.accessToken with
        | none => simp [getAccessTokenB, h, hr, hs2]
        | some tk => simp [getAccessTokenB, h, hr, hs2]
    · intro tk htk
      rcases hr : refreshTokenB now s netB with ⟨res, s2⟩
      cases res with
      | error m => simp [getAccessTokenB, h, hr] at htk
      | ok u =>
        cases hs2 : s2.accessToken with
        | none => simp [getAccessTokenB, h, hr, hs2] at htk
        | some tk2 => simp [getAccessTokenB, h, hr, hs2]
  · intro h tk htk
    exact (getAccessTokenA_miss_ok now c refreshNet acquireNet h tk htk).choose_spec.2.2.2

/-- Concrete instantiation of `c2_one_exchange_per_window`: three
implementation-B calls at times 0, 1000 and 2000 against a token valid for
600 seconds perform exactly one exchange in total. -/
theorem c2_one_exchange_per_window_witness :
    runCallsB [0, 1000, 2000] { accessToken := none, tokenExpiresAt := none }
        (fun _ => NetOutcomeB.ok { access_token := some "t1", expires_in := some 600 })
      = ({ accessToken := some "t1", tokenExpiresAt := some 300000 }, [true]) := by
  have h := (c2_one_exchange_per_window 0 [1000, 2000]
    { accessToken := none, tokenExpiresAt := none }
    { access_token := some "t1", expires_in := some 600 } "t1" 600
    (fun _ => NetOutcomeB.ok { access_token := some "t1", expires_in := some 600 })
    { access_token := "x", expires_in := 1, refresh_token := none, refresh_expires_in := none }
    (fun _ => (NetOutcome.err "r", NetOutcome.err "a"))
    0 { accessToken := none, tokenExpiresAt := none } (NetOutcomeB.otherErr "m")
    { token := "y", expiresAt := 0, refreshToken := none, refreshExpiresAt := none }
    (NetOutcome.err "r") (NetOutcome.err "a")).1
    (by decide) rfl rfl (by decide) rfl (by decide) (by decide)
  simpa using h

/-- C3: When the cached token is no longer valid but a cached refresh token
exists whose own expiry has not passed, `getAccessToken` (implementation A)
first attempts the refresh-token grant; a failed refresh attempt is not
propagated but falls through to a full credential exchange, and the overall
call fails exactly when that full exchange also fails — with the full
exchange's error, not the refresh error. -/
theorem c3_refresh_attempt_then_fallback
    (now : Int) (c : CachedToken) (rt : String) (m : String) (acquireNet : NetOutcome)
    (hval : isTokenValidA now c = false)
    (hrt : c.refreshToken = some rt)
    (hrv : isRefreshTokenValidA now c = true) :
    (∀ resp, getAccessTokenA now (some c) (NetOutcome.ok resp) acquireNet
        = (Except.ok resp.access_token, some (cacheFromRefresh now resp rt),
           [AuthEvent.refreshReq true])) ∧
    (getAccessTokenA now (some c) (NetOutcome.err m) acquireNet
        = ((acquireTokenA now acquireNet (some c)).1,
           (acquireTokenA now acquireNet (some c)).2,
           [AuthEvent.refreshReq false, AuthEvent.acquireReq acquireNet.isOk])) ∧
    (∀ resp2, acquireNet = NetOutcome.ok resp2 →
       (getAccessTokenA now (some c) (NetOutcome.err m) acquireNet).1
         = Except.ok resp2.access_token) ∧
    (∀ am, acquireNet = NetOutcome.err am →
       (getAccessTokenA now (some c) (NetOutcome.err m) acquireNet).1
         = Except.error ("DSV OAuth authentication failed: " ++ am)) := by
  refine ⟨?_, ?_, ?_, ?_⟩
  · intro resp
    simp [getAccessTokenA, hval, hrt, hrv]
  · simp [getAccessTokenA, hval, hrt, hrv]
  · intro resp2 ha
    subst ha
    simp [getAccessTokenA, hval, hrt, hrv, acquireTokenA]
  · intro am ha
    subst ha
    simp [getAccessTokenA, hval, hrt, hrv, acquireTokenA]

/-- Concrete instantiation of `c3_refresh_attempt_then_fallback`: an expired
token with a live refresh token, a failing refresh grant and a failing full
exchange make the call fail with the full exchange's error. -/
theorem c3_refresh_attempt_then_fallback_witness :
    (getAccessTokenA 50
        (some { token := "old", expiresAt := 0, refreshToken := some "rt",
                refreshExpiresAt := some 100 })
        (NetOutcome.err "refresh-down") (NetOutcome.err "boom")).1
      = Except.error ("DSV OAuth authentication failed: " ++ "boom") :=
  (c3_refresh_attempt_then_fallback 50
    { token := "old", expiresAt := 0, refreshToken := some "rt", refreshExpiresAt := some 100 }
    "rt" "refresh-down" (NetOutcome.err "boom")
    (by decide) rfl (by decide)).2.2.2 "boom" rfl

/-- C6: When the credential exchange is rejected by the provider,
implementation B's token acquisition fails with an error, and HTTP statuses
401, 403 and 429 produce three distinct error messages identifying invalid
credentials, forbidden access and rate limiting respectively. -/
theorem c6_auth_error_kinds
    (now : Int) (s : AuthStateB) (m1 m2 m3 : String)
    (hval : isTokenValidB s now = false) :
    (getAccessTokenB now s (NetOutcomeB.httpErr (some 401) m1)).1
        = Except.error "DSV Authentication failed: Invalid credentials" ∧
    (getAccessTokenB now s (NetOutcomeB.httpErr (some 403) m2)).1
        = Except.error "DSV Authentication failed: Access forbidden" ∧
    (getAccessTokenB now s (NetOutcomeB.httpErr (some 429) m3)).1
        = Except.error "DSV Authentication failed: Rate limit exceeded" ∧
    (∀ status m tok, (getAccessTokenB now s (NetOutcomeB.httpErr status m)).1 ≠ Except.ok tok) ∧
    ("DSV Authentication failed: Invalid credentials"
        ≠ "DSV Authentication failed: Access forbidden" ∧
     "DSV Authentication failed: Invalid credentials"
        ≠ "DSV Authentication failed: Rate limit exceeded" ∧
     "DSV Authentication failed: Access forbidden"
        ≠ "DSV Authentication failed: Rate limit exceeded") := by
  refine ⟨?_, ?_, ?_, ?_, by decide, by decide, by decide⟩
  · simp [getAccessTokenB, hval, refreshTokenB]
  · simp [getAccessTokenB, hval, refreshTokenB]
  · simp [getAccessTokenB, hval, refreshTokenB]
  · intro status m tok
    by_cases h1 : status = some 401
    · simp [getAccessTokenB, hval, refreshTokenB, h1]
    · by_cases h2 : status = some 403
      · simp [getAccessTokenB, hval, refreshTokenB, h1, h2]
      · by_cases h3 : status = some 429
        · simp [getAccessTokenB, hval, refreshTokenB, h1, h2, h3]
        · simp [getAccessTokenB, hval, refreshTokenB, h1, h2, h3]

/-- Concrete instantiation of `c6_auth_error_kinds`: a 401 rejection with an
empty cache yields the invalid-credentials error. -/
theorem c6_auth_error_kinds_witness :
    (getAccessTokenB 0 { accessToken := none, tokenExpiresAt := none }
        (NetOutcomeB.httpErr (some 401) "unauthorized")).1
      = Except.error "DSV Authentication failed: Invalid credentials" :=
  (c6_auth_error_kinds 0 { accessToken := none, tokenExpiresAt := none }
    "unauthorized" "forbidden" "limited" (by decide)).1

/-- Helper: appending the same string on the right cancels. -/
theorem append_cancel_right_str {f g r : String} (h : f ++ r = g ++ r) : f = g := by
  have h2 : f.data ++ r.data = g.data ++ r.data := by
    have := congrArg String.data h
    simpa [String.data_append] using this
  exact String.ext (List.append_cancel_right h2)

/-- Helper: appending the same string on the left cancels. -/
theorem append_cancel_left_str {p f g : String} (h : p ++ f = p ++ g) : f = g := by
  have h2 : p.data ++ f.data = p.data ++ g.data := by
    have := congrArg String.data h
    simpa [String.data_append] using this
  exact String.ext (List.append_cancel_left h2)

/-- Helper: `joinBar` on a cons with a nonempty tail. -/
theorem joinBar_cons (a : String) (l : List String) (h : l ≠ []) :
    joinBar (a :: l) = a ++ "|" ++ joinBar l := by
  cases l with
  | nil => exact absurd rfl h
  | cons b rest => rfl

/-- Helper: two `'|'`-joined lists that agree except at one position have
equal entries at that position.  This is what makes per-field key
injectivity work: with every other part fixed, the joined string
determines the varying part. -/
theorem joinBar_inj_at : ∀ (A B : List String) (f g : String),
    joinBar (A ++ f :: B) = joinBar (A ++ g :: B) → f = g
  | [], B, f, g, h => by
    cases B with
    | nil => simpa [joinBar] using h
    | cons b rest =>
      rw [List.nil_append, List.nil_append] at h
      rw [joinBar_cons f (b :: rest) (by simp), joinBar_cons g (b :: rest) (by simp)] at h
      exact append_cancel_right_str (append_cancel_right_str h)
  | a :: A, B, f, g, h => by
    rw [List.cons_append, List.cons_append] at h
    rw [joinBar_cons a (A ++ f :: B) (by simp), joinBar_cons a (A ++ g :: B) (by simp)] at h
    have h2 : (a ++ "|") ++ joinBar (A ++ f :: B) = (a ++ "|") ++ joinBar (A ++ g :: B) := h
    exact joinBar_inj_at A B f g (append_cancel_left_str h2)

/-- Helper: `airPart` depends only on presence and service level. -/
theorem airPart_congr {x y : Option DsvAirInfo}
    (h : x.map (fun a => a.serviceLevel) = y.map (fun a => a.serviceLevel)) :
    airPart x = airPart y := by
  cases x with
  | none => cases y with
    | none => rfl
    | some b => simp at h
  | some a => cases y with
    | none => simp at h
    | some b =>
      simp at h
      simp [airPart, h]

/-- Helper: `seaPart` depends only on presence and service level. -/
theorem seaPart_congr {x y : Option DsvSeaInfo}
    (h : x.map (fun a => a.serviceLevel) = y.map (fun a => a.serviceLevel)) :
    seaPart x = seaPart y := by
  cases x with
  | none => cases y with
    | none => rfl
    | some b => simp at h
  | some a => cases y with
    | none => simp at h
    | some b =>
      simp at h
      simp [seaPart, h]

/-- Helper: `roadPart` depends only on presence and service level. -/
theorem roadPart_congr {x y : Option DsvRoadInfo}
    (h : x.map (fun a => a.serviceLevel) = y.map (fun a => a.serviceLevel)) :
    roadPart x = roadPart y := by
  cases x with
  | none => cases y with
    | none => rfl
    | some b => simp at h
  | some a => cases y with
    | none => simp at h
    | some b =>
      simp at h
      simp [roadPart, h]

/-- Helper: `railPart` depends only on presence and service level. -/
theorem railPart_congr {x y : Option DsvRailInfo}
    (h : x.map (fun a => a.serviceLevel) = y.map (fun a => a.serviceLevel)) :
    railPart x = railPart y := by
  cases x with
  | none => cases y with
    | none => rfl
    | some b => simp at h
  | some a => cases y with
    | none => simp at h
    | some b =>
      simp at h
      simp [railPart, h]

/-- Helper: two requests whose key-part lists agree except in one slot
with different contents get different keys. -/
theorem generateCacheKey_ne_of_slot (r1 r2 : DsvQuoteRequest) (A B : List String)
    (f g : String) (h1 : keyParts r1 = A ++ f :: B) (h2 : keyParts r2 = A ++ g :: B)
    (hne : f ≠ g) : generateCacheKey r1 ≠ generateCacheKey r2 := by
  intro hk
  apply hne
  apply joinBar_inj_at A B f g
  simp only [generateCacheKey] at hk
  rw [h1, h2] at hk
  exact hk

/-- C4 counterexample: `reqC4a` and `reqC4b` agree on transport mode,
origin and destination codes, service level and every package weight, and
differ only in package count (1 versus 2), yet `buildCacheKey` assigns
them the same cache key — so two requests differing in exactly one of the
declared fields can share a key. -/
theorem c4_counterexample_package_count_same_key :
    buildCacheKey reqC4a = buildCacheKey reqC4b ∧
    reqC4a.transportMode = reqC4b.transportMode ∧
    reqC4a.origin = reqC4b.origin ∧
    reqC4a.destination = reqC4b.destination ∧
    reqC4a.serviceLevel = reqC4b.serviceLevel ∧
    (∀ p ∈ reqC4a.packages, p.weight = 5) ∧
    (∀ p ∈ reqC4b.packages, p.weight = 5) ∧
    reqC4a.packages.length = 1 ∧
    reqC4b.packages.length = 2 := by
  refine ⟨?_, rfl, rfl, rfl, rfl, ?_, ?_, rfl, rfl⟩
  · rfl
  · decide
  · decide

/-- C4 (amended): Both cache-key functions are pure, deterministic
functions of the request fields they read.  `generateCacheKey` of
`src/unnamed/part_002` gives equal keys to requests agreeing on its read
fields (origin/destination country, city and zip code, total weight,
package count, cargo type, and per-mode presence with service level), and
changing exactly one of those fields changes the key whenever the
normalized string rendering of the changed field changes (an absent zip
code or service level normalizes to the empty string; numbers render via
`toString`).  `buildCacheKey` of `src/unnamed/part_003` gives equal keys
to requests agreeing on transport mode, origin and destination country
codes and the rendered first-package weight; package count and service
level are not part of that key. -/
theorem c4_cache_key_function_of_fields (r r1 r2 : DsvQuoteRequest)
    (r3 r4 : DsvQuoteRequest3) (a : DsvAirInfo) (se : DsvSeaInfo)
    (ro : DsvRoadInfo) (ra : DsvRailInfo) :
    (cacheKeyFields r1 = cacheKeyFields r2 →
      generateCacheKey r1 = generateCacheKey r2) ∧
    (∀ v1 v2 : String, v1 ≠ v2 →
      generateCacheKey { r with from_ := { r.from_ with country := v1 } }
        ≠ generateCacheKey { r with from_ := { r.from_ with country := v2 } }) ∧
    (∀ v1 v2 : String, v1 ≠ v2 →
      generateCacheKey { r with from_ := { r.from_ with city := v1 } }
        ≠ generateCacheKey { r with from_ := { r.from_ with city := v2 } }) ∧
    (∀ z1 z2 : Option String, jsOrStr z1 "" ≠ jsOrStr z2 "" →
      generateCacheKey { r with from_ := { r.from_ with zipCode := z1 } }
        ≠ generateCacheKey { r with from_ := { r.from_ with zipCode := z2 } }) ∧
    (∀ v1 v2 : String, v1 ≠ v2 →
      generateCacheKey { r with to_ := { r.to_ with country := v1 } }
        ≠ generateCacheKey { r with to_ := { r.to_ with country := v2 } }) ∧
    (∀ v1 v2 : String, v1 ≠ v2 →
      generateCacheKey { r with to_ := { r.to_ with city := v1 } }
        ≠ generateCacheKey { r with to_ := { r.to_ with city := v2 } }) ∧
    (∀ z1 z2 : Option String, jsOrStr z1 "" ≠ jsOrStr z2 "" →
      generateCacheKey { r with to_ := { r.to_ with zipCode := z1 } }
        ≠ generateCacheKey { r with to_ := { r.to_ with zipCode := z2 } }) ∧
    (∀ w1 w2 : ℚ, toString w1 ≠ toString w2 →
      generateCacheKey { r with totalWeight := w1 }
        ≠ generateCacheKey { r with totalWeight := w2 }) ∧
    (∀ ps1 ps2 : List DsvPackage, toString ps1.length ≠ toString ps2.length →
      generateCacheKey { r with packages := ps1 }
        ≠ generateCacheKey { r with packages := ps2 }) ∧
    (∀ v1 v2 : String, v1 ≠ v2 →
      generateCacheKey { r with cargoType := v1 }
        ≠ generateCacheKey { r with cargoType := v2 }) ∧
    (∀ sl1 sl2 : Option String, jsOrStr sl1 "" ≠ jsOrStr sl2 "" →
      generateCacheKey { r with air := some { a with serviceLevel := sl1 } }
        ≠ generateCacheKey { r with air := some { a with serviceLevel := sl2 } }) ∧
    (∀ sl1 sl2 : Option String, jsOrStr sl1 "" ≠ jsOrStr sl2 "" →
      generateCacheKey { r with sea := some { se with serviceLevel := sl1 } }
        ≠ generateCacheKey { r with sea := some { se with serviceLevel := sl2 } }) ∧
    (∀ sl1 sl2 : Option String, jsOrStr sl1 "" ≠ jsOrStr sl2 "" →
      generateCacheKey { r with road := some { ro with serviceLevel := sl1 } }
        ≠ generateCacheKey { r with road := some { ro with serviceLevel := sl2 } }) ∧
    (∀ sl1 sl2 : Option String, jsOrStr sl1 "" ≠ jsOrStr sl2 "" →
      generateCacheKey { r with rail := some { ra with serviceLevel := sl1 } }
        ≠ generateCacheKey { r with rail := some { ra with serviceLevel := sl2 } }) ∧
    (buildKeyFields r3 = buildKeyFields r4 → buildCacheKey r3 = buildCacheKey r4) := by
  refine ⟨?_, ?_, ?_, ?_, ?_, ?_, ?_, ?_, ?_, ?_, ?_, ?_, ?_, ?_, ?_⟩
  · intro h
    simp only [cacheKeyFields, Prod.mk.injEq] at h
    obtain ⟨⟨h1, h2, h3⟩, ⟨h4, h5, h6⟩, h7, h8, h9, hA, hS, hR, hL⟩ := h
    simp only [generateCacheKey, keyParts, h1, h2, h3, h4, h5, h6, h7, h8, h9,
      airPart_congr hA, seaPart_congr hS, roadPart_congr hR, railPart_congr hL]
  · intro v1 v2 hne
    refine generateCacheKey_ne_of_slot _ _ []
      ([r.from_.city, jsOrStr r.from_.zipCode "", r.to_.country, r.to_.city,
        jsOrStr r.to_.zipCode "", toString r.totalWeight, toString r.packages.length,
        r.cargoType] ++ airPart r.air ++ seaPart r.sea ++ roadPart r.road
        ++ railPart r.rail)
      v1 v2 ?_ ?_ hne
    · simp [keyParts, List.append_assoc]
    · simp [keyParts, List.append_assoc]
  · intro v1 v2 hne
    refine generateCacheKey_ne_of_slot _ _ [r.from_.country]
      ([jsOrStr r.from_.zipCode "", r.to_.country, r.to_.city,
        jsOrStr r.to_.zipCode "", toString r.totalWeight, toString r.packages.length,
        r.cargoType] ++ airPart r.air ++ seaPart r.sea ++ roadPart r.road
        ++ railPart r.rail)
      v1 v2 ?_ ?_ hne
    · simp [keyParts, List.append_assoc]
    · simp [keyParts, List.append_assoc]
  · intro z1 z2 hne
    refine generateCacheKey_ne_of_slot _ _ [r.from_.country, r.from_.city]
      ([r.to_.country, r.to_.city, jsOrStr r.to_.zipCode "", toString r.totalWeight,
        toString r.packages.length, r.cargoType] ++ airPart r.air ++ seaPart r.sea
        ++ roadPart r.road ++ railPart r.rail)
      (jsOrStr z1 "") (jsOrStr z2 "") ?_ ?_ hne
    · simp [keyParts, List.append_assoc]
    · simp [keyParts, List.append_assoc]
  · intro v1 v2 hne
    refine generateCacheKey_ne_of_slot _ _
      [r.from_.country, r.from_.city, jsOrStr r.from_.zipCode ""]
      ([r.to_.city, jsOrStr r.to_.zipCode "", toString r.totalWeight,
        toString r.packages.length, r.cargoType] ++ airPart r.air ++ seaPart r.sea
        ++ roadPart r.road ++ railPart r.rail)
      v1 v2 ?_ ?_ hne
    · simp [keyParts, List.append_assoc]
    · simp [keyParts, List.append_assoc]
  · intro v1 v2 hne
    refine generateCacheKey_ne_of_slot _ _
      [r.from_.country, r.from_.city, jsOrStr r.from_.zipCode "", r.to_.country]
      ([jsOrStr r.to_.zipCode "", toString r.totalWeight,
        toString r.packages.length, r.cargoType] ++ airPart r.air ++ seaPart r.sea
        ++ roadPart r.road ++ railPart r.rail)
      v1 v2 ?_ ?_ hne
    · simp [keyParts, List.append_assoc]
    · simp [keyParts, List.append_assoc]
  · intro z1 z2 hne
    refine generateCacheKey_ne_of_slot _ _
      [r.from_.country, r.from_.city, jsOrStr r.from_.zipCode "", r.to_.country,
        r.to_.city]
      ([toString r.totalWeight, toString r.packages.length, r.cargoType]
        ++ airPart r.air ++ seaPart r.sea ++ roadPart r.road ++ railPart r.rail)
      (jsOrStr z1 "") (jsOrStr z2 "") ?_ ?_ hne
    · simp [keyParts, List.append_assoc]
    · simp [keyParts, List.append_assoc]
  · intro w1 w2 hne
    refine generateCacheKey_ne_of_slot _ _
      [r.from_.country, r.from_.city, jsOrStr r.from_.zipCode "", r.to_.country,
        r.to_.city, jsOrStr r.to_.zipCode ""]
      ([toString r.packages.length, r.cargoType] ++ airPart r.air ++ seaPart r.sea
        ++ roadPart r.road ++ railPart r.rail)
      (toString w1) (toString w2) ?_ ?_ hne
    · simp [keyParts, List.append_assoc]
    · simp [keyParts, List.append_assoc]
  · intro ps1 ps2 hne
    refine generateCacheKey_ne_of_slot _ _
      [r.from_.country, r.from_.city, jsOrStr r.from_.zipCode "", r.to_.country,
        r.to_.city, jsOrStr r.to_.zipCode "", toString r.totalWeight]
      ([r.cargoType] ++ airPart r.air ++ seaPart r.sea ++ roadPart r.road
        ++ railPart r.rail)
      (toString ps1.length) (toString ps2.length) ?_ ?_ hne
    · simp [keyParts, List.append_assoc]
    · simp [keyParts, List.append_assoc]
  · intro v1 v2 hne
    refine generateCacheKey_ne_of_slot _ _
      [r.from_.country, r.from_.city, jsOrStr r.from_.zipCode "", r.to_.country,
        r.to_.city, jsOrStr r.to_.zipCode "", toString r.totalWeight,
        toString r.packages.length]
      (airPart r.air ++ seaPart r.sea ++ roadPart r.road ++ railPart r.rail)
      v1 v2 ?_ ?_ hne
    · simp [keyParts, List.append_assoc]
    · simp [keyParts, List.append_assoc]
  · intro sl1 sl2 hne
    refine generateCacheKey_ne_of_slot _ _
      [r.from_.country, r.from_.city, jsOrStr r.from_.zipCode "", r.to_.country,
        r.to_.city, jsOrStr r.to_.zipCode "", toString r.totalWeight,
        toString r.packages.length, r.cargoType, "air"]
      (seaPart r.sea ++ roadPart r.road ++ railPart r.rail)
      (jsOrStr sl1 "") (jsOrStr sl2 "") ?_ ?_ hne
    · simp [keyParts, airPart, List.append_assoc]
    · simp [keyParts, airPart, List.append_assoc]
  · intro sl1 sl2 hne
    refine generateCacheKey_ne_of_slot _ _
      ([r.from_.country, r.from_.city, jsOrStr r.from_.zipCode "", r.to_.country,
        r.to_.city, jsOrStr r.to_.zipCode "", toString r.totalWeight,
        toString r.packages.length, r.cargoType] ++ airPart r.air ++ ["sea"])
      (roadPart r.road ++ railPart r.rail)
      (jsOrStr sl1 "") (jsOrStr sl2 "") ?_ ?_ hne
    · simp [keyParts, seaPart, List.append_assoc]
    · simp [keyParts, seaPart, List.append_assoc]
  · intro sl1 sl2 hne
    refine generateCacheKey_ne_of_slot _ _
      ([r.from_.country, r.from_.city, jsOrStr r.from_.zipCode "", r.to_.country,
        r.to_.city, jsOrStr r.to_.zipCode "", toString r.totalWeight,
        toString r.packages.length, r.cargoType] ++ airPart r.air ++ seaPart r.sea
        ++ ["road"])
      (railPart r.rail)
      (jsOrStr sl1 "") (jsOrStr sl2 "") ?_ ?_ hne
    · simp [keyParts, roadPart, List.append_assoc]
    · simp [keyParts, roadPart, List.append_assoc]
  · intro sl1 sl2 hne
    refine generateCacheKey_ne_of_slot _ _
      ([r.from_.country, r.from_.city, jsOrStr r.from_.zipCode "", r.to_.country,
        r.to_.city, jsOrStr r.to_.zipCode "", toString r.totalWeight,
        toString r.packages.length, r.cargoType] ++ airPart r.air ++ seaPart r.sea
        ++ roadPart r.road ++ ["rail"])
      []
      (jsOrStr sl1 "") (jsOrStr sl2 "") ?_ ?_ hne
    · simp [keyParts, railPart, List.append_assoc]
    · simp [keyParts, railPart, List.append_assoc]
  · intro h
    simp only [buildKeyFields, Prod.mk.injEq] at h
    obtain ⟨h1, h2, h3, h4⟩ := h
    simp only [buildCacheKey, h1, h2, h3, h4]

/-- Concrete instantiation of `c4_cache_key_function_of_fields`: changing
only the origin country of `reqDemo` changes the key. -/
theorem c4_cache_key_function_of_fields_witness :
    generateCacheKey { reqDemo with from_ := { reqDemo.from_ with country := "ZA" } }
      ≠ generateCacheKey { reqDemo with from_ := { reqDemo.from_ with country := "US" } } :=
  (c4_cache_key_function_of_fields reqDemo reqDemo reqDemo reqC4a reqC4a
    { originAirport := none, destinationAirport := none, serviceLevel := none }
    { originPort := none, destinationPort := none, serviceLevel := none }
    { serviceLevel := none } { serviceLevel := none }).2.1 "ZA" "US" (by decide)

/-- C5: A quote stored on a cache miss at time `t0` is served from the
cache, without the network path running, by any later `getQuote` with the
same key strictly before `t0 + TTL`; from `t0 + TTL` on, the lookup
misses and `getQuote` runs the authenticated network path again,
returning the fresh response.  The configured TTL defaults to 300
seconds. -/
theorem c5_quote_cache_ttl (t0 t1 : Int) (cache : QuoteCache) (r : DsvQuoteRequest)
    (tok : String) (resp : DsvQuoteResponse)
    (tn2 : Except String String) (qn2 : Except String DsvQuoteResponse)
    (hmiss : cacheGet cache t0 (generateCacheKey r) = none) :
    (getQuoteS t0 cache r (Except.ok tok) (Except.ok resp)
      = (Except.ok resp,
         cacheSet cache t0 (generateCacheKey r)
           { quoteId := resp.quoteRequestId, response := resp, cachedAt := t0 },
         true)) ∧
    (t1 < t0 + cache.ttlSeconds * 1000 →
      getQuoteS t1
          (cacheSet cache t0 (generateCacheKey r)
            { quoteId := resp.quoteRequestId, response := resp, cachedAt := t0 })
          r tn2 qn2
        = (Except.ok resp,
           cacheSet cache t0 (generateCacheKey r)
             { quoteId := resp.quoteRequestId, response := resp, cachedAt := t0 },
           false)) ∧
    (t0 + cache.ttlSeconds * 1000 ≤ t1 →
      cacheGet
          (cacheSet cache t0 (generateCacheKey r)
            { quoteId := resp.quoteRequestId, response := resp, cachedAt := t0 })
          t1 (generateCacheKey r) = none ∧
      (getQuoteS t1
          (cacheSet cache t0 (generateCacheKey r)
            { quoteId := resp.quoteRequestId, response := resp, cachedAt := t0 })
          r tn2 qn2).2.2 = true ∧
      (∀ tk resp2, tn2 = Except.ok tk → qn2 = Except.ok resp2 →
        (getQuoteS t1
            (cacheSet cache t0 (generateCacheKey r)
              { quoteId := resp.quoteRequestId, response := resp, cachedAt := t0 })
            r tn2 qn2).1 = Except.ok resp2)) ∧
    quoteCacheTTLof none = 300 := by
  refine ⟨?_, ?_, ?_, rfl⟩
  · simp [getQuoteS, hmiss]
  · intro h
    have hget : cacheGet
        (cacheSet cache t0 (generateCacheKey r)
          { quoteId := resp.quoteRequestId, response := resp, cachedAt := t0 })
        t1 (generateCacheKey r)
        = some { quoteId := resp.quoteRequestId, response := resp, cachedAt := t0 } := by
      simp [cacheGet, cacheSet, List.find?, h]
    simp [getQuoteS, hget]
  · intro h
    have hget : cacheGet
        (cacheSet cache t0 (generateCacheKey r)
          { quoteId := resp.quoteRequestId, response := resp, cachedAt := t0 })
        t1 (generateCacheKey r) = none := by
      simp [cacheGet, cacheSet, List.find?, not_lt.mpr h]
    refine ⟨hget, ?_, ?_⟩
    · cases tn2 with
      | error m => simp [getQuoteS, hget]
      | ok tk =>
        cases qn2 with
        | error m => simp [getQuoteS, hget]
        | ok resp2 => simp [getQuoteS, hget]
    · intro tk resp2 htn hqn
      subst htn
      subst hqn
      simp [getQuoteS, hget]

/-- Concrete instantiation of `c5_quote_cache_ttl`: a quote inserted at
time 0 with a 300-second TTL is unreachable at time 300000 ms. -/
theorem c5_quote_cache_ttl_witness :
    cacheGet
        (cacheSet { ttlSeconds := 300, entries := [] } 0 (generateCacheKey reqDemo)
          { quoteId := "Q1",
            response := { quoteRequestId := "Q1", status := "OK", options := [] },
            cachedAt := 0 })
        300000 (generateCacheKey reqDemo) = none :=
  ((c5_quote_cache_ttl 0 300000 { ttlSeconds := 300, entries := [] } reqDemo "tk"
    { quoteRequestId := "Q1", status := "OK", options := [] }
    (Except.ok "tk")
    (Except.ok { quoteRequestId := "Q2", status := "OK", options := [] })
    rfl).2.2.1 (by decide)).1

/-- C7: A failure caught inside the quote-service network path is
re-thrown with message prefix `DSV Quote API failed: `, one caught inside
the booking-service path with `DSV Booking API failed: `, while the
part_002 rate calculator's quote path catches any failure and instead
returns the zero-price result carrying the error message in its
metadata. -/
theorem c7_stage_prefixed_wrapping
    (now : Int) (cache : QuoteCache) (r : DsvQuoteRequest) (m : String) (tok : String)
    (qn : Except String DsvQuoteResponse) (postNet : Except String DsvBookingResponse)
    (inc : Bool) (tax : Int)
    (hmiss : cacheGet cache now (generateCacheKey r) = none) :
    ((getQuoteS now cache r (Except.error m) qn).1
        = Except.error ("DSV Quote API failed: " ++ m)) ∧
    ((getQuoteS now cache r (Except.ok tok) (Except.error m)).1
        = Except.error ("DSV Quote API failed: " ++ m)) ∧
    (createBookingS (Except.error m) postNet
        = Except.error ("DSV Booking API failed: " ++ m)) ∧
    (createBookingS (Except.ok tok) (Except.error m)
        = Except.error ("DSV Booking API failed: " ++ m)) ∧
    (dsvCalculateQuotePath inc tax [] (Except.error m) = calcFallback inc tax m) ∧
    ((dsvCalculateQuotePath inc tax [] (Except.error m)).price = 0 ∧
     (dsvCalculateQuotePath inc tax [] (Except.error m)).metaMessage = some m) := by
  refine ⟨?_, ?_, rfl, rfl, rfl, rfl, rfl⟩
  · simp [getQuoteS, hmiss]
  · simp [getQuoteS, hmiss]

/-- Concrete instantiation of `c7_stage_prefixed_wrapping`: a quote
failure against an empty cache surfaces as the stage-prefixed error. -/
theorem c7_stage_prefixed_wrapping_witness :
    (getQuoteS 0 { ttlSeconds := 300, entries := [] } reqDemo
        (Except.error "503 Service Unavailable") (Except.error "x")).1
      = Except.error ("DSV Quote API failed: " ++ "503 Service Unavailable") :=
  (c7_stage_prefixed_wrapping 0 { ttlSeconds := 300, entries := [] } reqDemo
    "503 Service Unavailable" "tk" (Except.error "x")
    (Except.error "y") false 15 rfl).1

/-- Helper: one grouping step never empties the group list. -/
theorem addLine_ne_nil (acc : List (String × OrderLine × Int)) (line : OrderLine) :
    addLine acc line ≠ [] := by
  unfold addLine
  split
  · rename_i h
    cases acc with
    | nil => simp at h
    | cons x xs => simp
  · simp

/-- Helper: folding grouping steps over any lines keeps a nonempty
accumulator nonempty. -/
theorem foldl_addLine_ne_nil (ls : List OrderLine) (acc : List (String × OrderLine × Int))
    (h : acc ≠ []) : List.foldl addLine acc ls ≠ [] := by
  induction ls generalizing acc with
  | nil => simpa using h
  | cons l ls ih => exact ih (addLine acc l) (addLine_ne_nil acc l)

/-- Helper: a nonempty order yields at least one sku group. -/
theorem groupBySku_ne_nil (l : OrderLine) (ls : List OrderLine) :
    groupBySku (l :: ls) ≠ [] := by
  unfold groupBySku
  rw [List.foldl_cons]
  exact foldl_addLine_ne_nil ls (addLine [] l) (addLine_ne_nil [] l)

/-- C8 counterexample: for an order line whose variant has no weight or
dimension custom fields, `convertToBookingPackages` substitutes height
20 cm, not the 10 cm stated for the converters collectively — the
30×20×10 defaults hold for `calculatePackages`, while the booking
converter defaults to 30×20×20. -/
theorem c8_counterexample_booking_height_default :
    (convertToBookingPackages { packageType := "CLL", stackable := true }
        [{ productVariant :=
             { sku := "SKU1", name := "Widget", customFields := noCustomFields }
           quantity := 1, proratedLinePrice := 100, orderCode := none }]).map
        (fun p => p.height) = [20] ∧ (20 : ℚ) ≠ 10 := by
  constructor
  · rfl
  · decide

/-- C8 (amended): For every order line whose product variant lacks the
optional weight and dimension custom fields the converters do not fail
but substitute fixed defaults — `calculatePackages` (part_004) uses 1 kg
and 30×20×10 cm, `convertToBookingPackages`
(`src/src/utils/booking-converter.ts`) uses 1 kg and 30×20×20 cm — and
for a missing customer object `convertContact` returns the fixed fallback
contact rather than raising. -/
theorem c8_missing_fields_use_defaults
    (cur sku : String) (line : OrderLine) (qty : Int)
    (order : Order) (l0 : OrderLine) (ls : List OrderLine)
    (defaults : BookingDefaults) (idx : Nat) :
    (line.productVariant.customFields = noCustomFields →
      packageOfGroup cur (sku, line, qty) =
        { goodsDescription := line.productVariant.name
          packageType := determinePackageType ((qty : ℚ)) 30 20 10
          quantity := qty
          totalWeight := (qty : ℚ)
          length := 30
          width := 20
          height := 10
          value := some line.proratedLinePrice
          currency := some cur }) ∧
    (order.lines = l0 :: ls →
      (calculatePackages order).packages
        = (groupBySku order.lines).map (packageOfGroup order.currencyCode)) ∧
    (line.productVariant.customFields = noCustomFields →
      bookingPackageOfLine defaults idx line =
        { quantity := line.quantity
          packageType := defaults.packageType
          totalWeight := (line.quantity : ℚ)
          netWeight := (line.quantity : ℚ)
          length := 30
          height := 20
          width := 20
          stackable := defaults.stackable
          totalVolume := 30 * 20 * 20 / 1000000 * (line.quantity : ℚ)
          palletSpace := none
          loadingMeters := 0
          description := jsStr line.productVariant.name
            (jsStr line.productVariant.sku ("Product " ++ toString (idx + 1)))
          shippingMarks := jsOptStr line.orderCode }) ∧
    convertContact none =
      { email := "noreply@example.com", firstName := some "Customer",
        lastName := some "User", phone := none } := by
  refine ⟨?_, ?_, ?_, rfl⟩
  · intro h
    simp [packageOfGroup, h, noCustomFields, jsOrRat]
  · intro h
    have hg : groupBySku order.lines ≠ [] := by
      rw [h]
      exact groupBySku_ne_nil l0 ls
    have hne : ((groupBySku order.lines).map
        (packageOfGroup order.currencyCode)).isEmpty = false := by
      cases hgb : groupBySku order.lines with
      | nil => exact absurd hgb hg
      | cons x xs => simp
    simp [calculatePackages, hne]
  · intro h
    simp [bookingPackageOfLine, h, noCustomFields, jsOrRat]

/-- Concrete instantiation of `c8_missing_fields_use_defaults`: the
booking converter applied to a field-less widget line. -/
theorem c8_missing_fields_use_defaults_witness :
    bookingPackageOfLine { packageType := "CLL", stackable := true } 0
        { productVariant :=
            { sku := "SKU1", name := "Widget", customFields := noCustomFields }
          quantity := 2, proratedLinePrice := 100, orderCode := none } =
      { quantity := 2, packageType := "CLL", totalWeight := 2, netWeight := 2,
        length := 30, height := 20, width := 20, stackable := true,
        totalVolume := 30 * 20 * 20 / 1000000 * 2, palletSpace := none,
        loadingMeters := 0, description := "Widget", shippingMarks := none } := by
  have h := (c8_missing_fields_use_defaults "ZAR" "SKU1"
    { productVariant :=
        { sku := "SKU1", name := "Widget", customFields := noCustomFields }
      quantity := 2, proratedLinePrice := 100, orderCode := none } 1
    { lines := [], currencyCode := "ZAR", totalWithTax := 0, code := "X" }
    { productVariant :=
        { sku := "SKU1", name := "Widget", customFields := noCustomFields }
      quantity := 2, proratedLinePrice := 100, orderCode := none } []
    { packageType := "CLL", stackable := true } 0).2.2.1 rfl
  simpa using h

/-- C9: `determinePackageType` is a pure total function of
(weight, length, width, height) equal, at every input, to the ordered
decision table exactly as the specification states it. -/
theorem c9_determinePackageType_matches_spec_table (w l wi h : ℚ) :
    determinePackageType w l wi h = specPackageType w l wi h := rfl

/-- C10: With the plugin configured for the test environment (and a
nonempty configured test MDM account, as the plugin's option validation
enforces), the booking request `submitBooking` posts never has a falsy
bookingParty or freightPayer MDM: absent ones are set to the test
account, present ones and every other part of the request are left
unchanged.  In the production environment the request is posted exactly
as given. -/
theorem c10_submitBooking_test_mdm_fill
    (req : BookingRequest2) (testMdm : String) (htm : testMdm ≠ "") :
    strFalsy (submitBookingPrep DsvEnvironment.test testMdm
        req).parties.bookingParty.address.mdm = false ∧
    strFalsy (submitBookingPrep DsvEnvironment.test testMdm
        req).parties.freightPayer.address.mdm = false ∧
    (strFalsy req.parties.bookingParty.address.mdm = false →
      (submitBookingPrep DsvEnvironment.test testMdm req).parties.bookingParty
        = req.parties.bookingParty) ∧
    (strFalsy req.parties.freightPayer.address.mdm = false →
      (submitBookingPrep DsvEnvironment.test testMdm req).parties.freightPayer
        = req.parties.freightPayer) ∧
    (submitBookingPrep DsvEnvironment.test testMdm req).parties.bookingParty.address.rest
        = req.parties.bookingParty.address.rest ∧
    (submitBookingPrep DsvEnvironment.test testMdm req).parties.freightPayer.address.rest
        = req.parties.freightPayer.address.rest ∧
    (submitBookingPrep DsvEnvironment.test testMdm req).parties.othersRest
        = req.parties.othersRest ∧
    (submitBookingPrep DsvEnvironment.test testMdm req).bodyRest = req.bodyRest ∧
    submitBookingPrep DsvEnvironment.production testMdm req = req := by
  have hmdm : strFalsy (some testMdm) = false := by
    simp [strFalsy, htm]
  refine ⟨?_, ?_, ?_, ?_, ?_, ?_, ?_, ?_, rfl⟩
  · cases hb : strFalsy req.parties.bookingParty.address.mdm with
    | true =>
      cases hf : strFalsy req.parties.freightPayer.address.mdm with
      | true => simp [submitBookingPrep, hb, hf, hmdm]
      | false => simp [submitBookingPrep, hb, hf, hmdm]
    | false =>
      cases hf : strFalsy req.parties.freightPayer.address.mdm with
      | true => simp [submitBookingPrep, hb, hf, hmdm]
      | false => simp [submitBookingPrep, hb, hf, hb]
  · cases hb : strFalsy req.parties.bookingParty.address.mdm with
    | true =>
      cases hf : strFalsy req.parties.freightPayer.address.mdm with
      | true => simp [submitBookingPrep, hb, hf, hmdm]
      | false => simp [submitBookingPrep, hb, hf]
    | false =>
      cases hf : strFalsy req.parties.freightPayer.address.mdm with
      | true => simp [submitBookingPrep, hb, hf, hmdm]
      | false => simp [submitBookingPrep, hb, hf]
  · intro hb
    cases hf : strFalsy req.parties.freightPayer.address.mdm with
    | true => simp [submitBookingPrep, hb, hf]
    | false => simp [submitBookingPrep, hb, hf]
  · intro hf
    cases hb : strFalsy req.parties.bookingParty.address.mdm with
    | true => simp [submitBookingPrep, hb, hf]
    | false => simp [submitBookingPrep, hb, hf]
  · cases hb : strFalsy req.parties.bookingParty.address.mdm with
    | true =>
      cases hf : strFalsy req.parties.freightPayer.address.mdm with
      | true => simp [submitBookingPrep, hb, hf]
      | false => simp [submitBookingPrep, hb, hf]
    | false =>
      cases hf : strFalsy req.parties.freightPayer.address.mdm with
      | true => simp [submitBookingPrep, hb, hf]
      | false => simp [submitBookingPrep, hb, hf]
  · cases hb : strFalsy req.parties.bookingParty.address.mdm with
    | true =>
      cases hf : strFalsy req.parties.freightPayer.address.mdm with
      | true => simp [submitBookingPrep, hb, hf]
      | false => simp [submitBookingPrep, hb, hf]
    | false =>
      cases hf : strFalsy req.parties.freightPayer.address.mdm with
      | true => simp [submitBookingPrep, hb, hf]
      | false => simp [submitBookingPrep, hb, hf]
  · cases hb : strFalsy req.parties.bookingParty.address.mdm with
    | true =>
      cases hf : strFalsy req.parties.freightPayer.address.mdm with
      | true => simp [submitBookingPrep, hb, hf]
      | false => simp [submitBookingPrep, hb, hf]
    | false =>
      cases hf : strFalsy req.parties.freightPayer.address.mdm with
      | true => simp [submitBookingPrep, hb, hf]
      | false => simp [submitBookingPrep, hb, hf]
  · cases hb : strFalsy req.parties.bookingParty.address.mdm with
    | true =>
      cases hf : strFalsy req.parties.freightPayer.address.mdm with
      | true => simp [submitBookingPrep, hb, hf]
      | false => simp [submitBookingPrep, hb, hf]
    | false =>
      cases hf : strFalsy req.parties.freightPayer.address.mdm with
      | true => simp [submitBookingPrep, hb, hf]
      | false => simp [submitBookingPrep, hb, hf]

/-- Concrete instantiation of `c10_submitBooking_test_mdm_fill`: a
request with both MDM fields absent gets them filled in the test
environment. -/
theorem c10_submitBooking_test_mdm_fill_witness :
    strFalsy (submitBookingPrep DsvEnvironment.test "1234567890"
        { parties := { bookingParty := { address := { mdm := none, rest := "bp" } },
                       freightPayer := { address := { mdm := none, rest := "fp" } },
                       othersRest := "others" },
          bodyRest := "body" }).parties.bookingParty.address.mdm = false :=
  (c10_submitBooking_test_mdm_fill
    { parties := { bookingParty := { address := { mdm := none, rest := "bp" } },
                   freightPayer := { address := { mdm := none, rest := "fp" } },
                   othersRest := "others" },
      bodyRest := "body" } "1234567890" (by decide)).1
